import Mathlib

/-
Verification of the flutter auto-reload supervisor.

Shallow embedding of src/src/main.rs. Time is modelled as Nat
milliseconds: Instant.now becomes an explicit now parameter, and
Instant.duration_since becomes truncated Nat subtraction, which matches
the saturating behaviour of a monotone clock. Writes to the child
standard input are modelled as a trace of StdinOp events; every
write_all in the source is immediately followed by a flush, and the
trace records both. The child stdin handle is piped at spawn time and
is therefore always present, so the source pattern
`if let Some(stdin) = self.process.stdin.as_mut()` always takes the
Some branch and is embedded as an unconditional write.
-/

/-- Command-line configuration, from struct Args in main.rs. The
project path and the optional string fields are plain strings; the
debounce field is the u64 millisecond count (no arithmetic overflows
it here, so Nat is faithful). -/
structure Args where
  project_path : String
  flutter_args : List String
  debounce : Nat
  device_id : Option String
  flavor : Option String
  release : Bool
  profile : Bool
deriving DecidableEq, Repr

/-- The two command variants, from enum FlutterCommand in main.rs. The
key byte of KeyInput is a u8, modelled as Nat (it is only stored and
forwarded, never computed with). -/
inductive FlutterCommand where
  | Reload : FlutterCommand
  | KeyInput : Nat → FlutterCommand
deriving DecidableEq, Repr

/-- One operation on the child standard-input pipe: a write_all of a
byte sequence, or a flush. -/
inductive StdinOp where
  | write : List Nat → StdinOp
  | flush : StdinOp
deriving DecidableEq, Repr

/-- Supervisor state, from struct FlutterRunner in main.rs: the child
process handle is not observable in the embedding beyond its stdin
trace, so only the timestamp and the debounce duration remain. -/
structure FlutterRunner where
  last_reload : Nat
  debounce_duration : Nat
deriving DecidableEq, Repr

/-- Result of one handle_command call: the updated supervisor state,
the stdin operations performed in order, and whether the human-visible
reload notice was printed to standard output. -/
structure DispatchResult where
  runner : FlutterRunner
  stdinOps : List StdinOp
  notice : Bool
deriving DecidableEq, Repr

/-- FlutterRunner.handle_command from main.rs. On Reload, compare
now.duration_since(last_reload) with debounce_duration; when at least
the debounce has elapsed, print the notice, write the bytes r (114)
and newline (10), flush, and set last_reload to now. On KeyInput,
write the single byte and flush, touching no state. -/
def handle_command (r : FlutterRunner) (now : Nat) (cmd : FlutterCommand) : DispatchResult :=
  match cmd with
  | FlutterCommand.Reload =>
    if now - r.last_reload ≥ r.debounce_duration then
      { runner := { last_reload := now, debounce_duration := r.debounce_duration },
        stdinOps := [StdinOp.write [114, 10], StdinOp.flush],
        notice := true }
    else
      { runner := r, stdinOps := [], notice := false }
  | FlutterCommand.KeyInput key =>
    { runner := r, stdinOps := [StdinOp.write [key], StdinOp.flush], notice := false }

/-- Child argument list assembled by FlutterRunner::new in main.rs,
translated step by step: start from run, then conditionally append
device id, flavor, the release/profile flag, and finally the
pass-through arguments. -/
def buildArgs (a : Args) : List String :=
  let args0 := ["run"]
  let args1 :=
    match a.device_id with
    | some id => args0 ++ ["--device-id", id]
    | none => args0
  let args2 :=
    match a.flavor with
    | some f => args1 ++ ["--flavor", f]
    | none => args1
  let args3 :=
    if a.release then args2 ++ ["--release"]
    else if a.profile then args2 ++ ["--profile"]
    else args2
  args3 ++ a.flutter_args

/-- FlutterRunner::new from main.rs, state part: last_reload is
initialised to the construction-time clock reading and the debounce
duration is taken from the configuration. -/
def FlutterRunner.new (a : Args) (now : Nat) : FlutterRunner :=
  { last_reload := now, debounce_duration := a.debounce }

/-- A filesystem path as the watcher branch of main uses it: the only
operation the source performs on a path is extension(), so the
embedding carries that observation directly (None when the file name
has no extension). -/
structure FsPath where
  extension : Option String
deriving DecidableEq, Repr

/-- A notification event, from the notify crate as used in main.rs:
the source only reads event.paths. -/
structure FsEvent where
  paths : List FsPath
deriving DecidableEq, Repr

/-- The watcher filtering branch of the main event loop: a received
item is a Result of event or error; on Ok, look at the first path, and
only when it has extension dart produce a Reload command. Every other
shape produces nothing. The error payload of the notify crate is
irrelevant to the branch, so it is Unit. -/
def watcherStep (item : Except Unit FsEvent) : Option FlutterCommand :=
  match item with
  | Except.error _ => none
  | Except.ok ev =>
    match ev.paths.head? with
    | none => none
    | some p =>
      match p.extension with
      | none => none
      | some ext =>
        if ext = "dart" then some FlutterCommand.Reload else none

/-- Result of one iteration of the main event loop: the supervisor
state afterwards, the remaining contents of both queues, the stdin
operations dispatched in order, and the sleep performed at the end of
the iteration, in milliseconds. -/
structure IterResult where
  runner : FlutterRunner
  fileQueue : List (Except Unit FsEvent)
  inputQueue : List FlutterCommand
  dispatched : List StdinOp
  sleepMs : Nat
deriving Repr

/-- One iteration of the main event loop in main.rs. try_recv on a
channel is modelled as popping the head of a queue list when nonempty.
First the file channel is polled and a passing event is dispatched as
Reload, then the keyboard channel is polled and its command dispatched
unchanged, then the loop sleeps 10 milliseconds. -/
def loopIter (r : FlutterRunner) (fileQ : List (Except Unit FsEvent))
    (inputQ : List FlutterCommand) (now : Nat) : IterResult :=
  let fstep :
      FlutterRunner × List (Except Unit FsEvent) × List StdinOp :=
    match fileQ with
    | [] => (r, [], [])
    | item :: rest =>
      match watcherStep item with
      | some cmd =>
        let res := handle_command r now cmd
        (res.runner, rest, res.stdinOps)
      | none => (r, rest, [])
  let r1 := fstep.1
  let kstep : FlutterRunner × List FlutterCommand × List StdinOp :=
    match inputQ with
    | [] => (r1, [], [])
    | c :: rest =>
      let res := handle_command r1 now c
      (res.runner, rest, res.stdinOps)
  { runner := kstep.1
    fileQueue := fstep.2.1
    inputQueue := kstep.2.1
    dispatched := fstep.2.2 ++ kstep.2.2
    sleepMs := 10 }

/-- Outcome of program startup as far as the pre-flight check: either
exit with a code after printing one line to standard error, or proceed
to spawn the child with a given argument list in a given working
directory. -/
inductive StartupOutcome where
  | exits : Nat → String → StartupOutcome
  | spawns : List String → String → StartupOutcome
deriving DecidableEq, Repr

/-- The startup path of main in main.rs, parametrised by whether
project_path/pubspec.yaml exists on disk (an external fact): when it
does not, print the diagnostic line to standard error and exit with
code 1 before FlutterRunner::new runs; when it does, proceed to spawn
the child with the assembled arguments, in the project directory. -/
def mainStartup (a : Args) (pubspecExists : Bool) : StartupOutcome :=
  if pubspecExists then
    StartupOutcome.spawns (buildArgs a) a.project_path
  else
    StartupOutcome.exits 1 ("Error: Not a valid Flutter project directory")

/-- A sequence of dispatch calls with their clock readings, recording
for each step the last_reload value before, the last_reload value
after, and the stdin operations performed. -/
def dispatchSteps (r : FlutterRunner) : List (Nat × FlutterCommand) → List (Nat × Nat × List StdinOp)
  | [] => []
  | (t, c) :: rest =>
    let res := handle_command r t c
    (r.last_reload, res.runner.last_reload, res.stdinOps) :: dispatchSteps res.runner rest

/-- Clock readings are monotone: each reading is at least the given
lower bound, and successive readings do not decrease. This is the
guarantee a monotone Instant clock provides for the now values of
successive dispatch calls. -/
def timesMonotone : Nat → List (Nat × FlutterCommand) → Bool
  | _, [] => true
  | lo, (t, _) :: rest => decide (lo ≤ t) && timesMonotone t rest

-- Helper lemmas shared by several claim proofs.

theorem handle_command_reload_fires (r : FlutterRunner) (now : Nat)
    (h : r.debounce_duration ≤ now - r.last_reload) :
    handle_command r now FlutterCommand.Reload =
      { runner := { last_reload := now, debounce_duration := r.debounce_duration },
        stdinOps := [StdinOp.write [114, 10], StdinOp.flush],
        notice := true } := by
  simp [handle_command, h]

theorem handle_command_reload_suppressed (r : FlutterRunner) (now : Nat)
    (h : now - r.last_reload < r.debounce_duration) :
    handle_command r now FlutterCommand.Reload =
      { runner := r, stdinOps := [], notice := false } := by
  simp [handle_command, Nat.not_le.mpr h]

theorem timesMonotone_weaken (a b : Nat) (l : List (Nat × FlutterCommand))
    (hab : a ≤ b) (h : timesMonotone b l = true) : timesMonotone a l = true := by
  cases l with
  | nil => rfl
  | cons d rest =>
    obtain ⟨t, c⟩ := d
    simp only [timesMonotone, Bool.and_eq_true, decide_eq_true_eq] at h ⊢
    exact ⟨le_trans hab h.1, h.2⟩

theorem handle_command_last_bounds (r : FlutterRunner) (now : Nat) (c : FlutterCommand)
    (h : r.last_reload ≤ now) :
    r.last_reload ≤ (handle_command r now c).runner.last_reload ∧
      (handle_command r now c).runner.last_reload ≤ now := by
  cases c with
  | Reload =>
    by_cases hd : r.debounce_duration ≤ now - r.last_reload
    · rw [handle_command_reload_fires r now hd]
      exact ⟨h, le_refl now⟩
    · rw [handle_command_reload_suppressed r now (Nat.not_le.mp hd)]
      exact ⟨le_refl _, h⟩
  | KeyInput k => exact ⟨le_refl _, h⟩

-- Claim theorems.

/-- C3: dispatching KeyInput(b) writes exactly the single byte b to
the child stdin and flushes, with no notice printed and the supervisor
state returned unchanged, for every byte and every current state —
key input is never suppressed by the debounce and the byte is not
transformed. -/
theorem keyinput_passthrough (r : FlutterRunner) (now key : Nat) :
    handle_command r now (FlutterCommand.KeyInput key) =
      { runner := r, stdinOps := [StdinOp.write [key], StdinOp.flush], notice := false } := rfl

/-- C10: a KeyInput dispatch leaves every supervisor field unchanged:
the returned runner equals the input runner, so in particular
last_reload and debounce_duration are exactly what they were before
the call, and keyboard input cannot alter the debounce window. -/
theorem keyinput_frame (r : FlutterRunner) (now key : Nat) :
    (handle_command r now (FlutterCommand.KeyInput key)).runner.last_reload = r.last_reload ∧
    (handle_command r now (FlutterCommand.KeyInput key)).runner.debounce_duration = r.debounce_duration ∧
    (handle_command r now (FlutterCommand.KeyInput key)).runner = r :=
  ⟨rfl, rfl, rfl⟩

/-- C5: the child argument list is exactly run, then the device-id
pair when set, then the flavor pair when set, then the release flag or
else the profile flag when set (so release wins and is the only mode
flag emitted when both are set), then the pass-through arguments
verbatim. -/
theorem child_args_order (a : Args) :
    buildArgs a =
      ["run"]
      ++ (match a.device_id with
          | some id => ["--device-id", id]
          | none => [])
      ++ (match a.flavor with
          | some f => ["--flavor", f]
          | none => [])
      ++ (if a.release then ["--release"]
          else if a.profile then ["--profile"]
          else [])
      ++ a.flutter_args := by
  simp only [buildArgs]
  cases a.device_id <;> cases a.flavor <;> cases hr : a.release <;> cases hp : a.profile <;> simp

/-- C6: when project_path/pubspec.yaml does not exist, startup prints
the single diagnostic line to standard error and exits with code 1
before any child is spawned; when it exists, the pre-flight check
passes and startup proceeds to spawn the child. -/
theorem preflight_pubspec (a : Args) :
    mainStartup a false =
      StartupOutcome.exits 1 ("Error: Not a valid Flutter project directory") ∧
    mainStartup a true = StartupOutcome.spawns (buildArgs a) a.project_path :=
  ⟨rfl, rfl⟩

/-- C1: a Reload dispatch with now − last_reload at least the debounce
interval writes the two bytes r and newline, flushes, prints the
notice, and sets last_reload to now; a Reload dispatch inside the
debounce window does nothing at all; and in particular a Reload
arriving exactly at last_reload + debounce_duration is dispatched. -/
theorem reload_dispatch_debounce (r : FlutterRunner) (now : Nat) :
    (r.debounce_duration ≤ now - r.last_reload →
      handle_command r now FlutterCommand.Reload =
        { runner := { last_reload := now, debounce_duration := r.debounce_duration },
          stdinOps := [StdinOp.write [114, 10], StdinOp.flush],
          notice := true }) ∧
    (now - r.last_reload < r.debounce_duration →
      handle_command r now FlutterCommand.Reload =
        { runner := r, stdinOps := [], notice := false }) ∧
    handle_command r (r.last_reload + r.debounce_duration) FlutterCommand.Reload =
      { runner := { last_reload := r.last_reload + r.debounce_duration,
                    debounce_duration := r.debounce_duration },
        stdinOps := [StdinOp.write [114, 10], StdinOp.flush],
        notice := true } := by
  refine ⟨handle_command_reload_fires r now, handle_command_reload_suppressed r now, ?_⟩
  exact handle_command_reload_fires r _ (by simp)

/-- C1 witness: with last_reload 0 and debounce 2, a Reload at time 5
is dispatched with the full effect. -/
theorem reload_dispatch_debounce_witness :
    handle_command ⟨0, 2⟩ 5 FlutterCommand.Reload =
      { runner := ⟨5, 2⟩,
        stdinOps := [StdinOp.write [114, 10], StdinOp.flush],
        notice := true } :=
  (reload_dispatch_debounce ⟨0, 2⟩ 5).1 (by decide)

/-- C2: along any sequence of dispatch calls whose clock readings are
monotone (each at least the current last_reload, successive readings
nondecreasing, as a monotone clock guarantees), every step takes
last_reload forward (never backward), and any step that changes
last_reload is one whose stdin effect is exactly the reload write of
r and newline followed by a flush — so last_reload is never updated by
a suppressed reload or by a KeyInput dispatch. -/
theorem last_reload_monotone (r : FlutterRunner) (ds : List (Nat × FlutterCommand))
    (h : timesMonotone r.last_reload ds = true) :
    ∀ s ∈ dispatchSteps r ds,
      s.1 ≤ s.2.1 ∧
      (s.1 ≠ s.2.1 → s.2.2 = [StdinOp.write [114, 10], StdinOp.flush]) := by
  induction ds generalizing r with
  | nil =>
    intro s hs
    simp [dispatchSteps] at hs
  | cons d rest ih =>
    obtain ⟨t, c⟩ := d
    simp only [timesMonotone, Bool.and_eq_true, decide_eq_true_eq] at h
    obtain ⟨hle, hrest⟩ := h
    intro s hs
    simp only [dispatchSteps, List.mem_cons] at hs
    rcases hs with hs | hs
    · subst hs
      obtain ⟨hlo, _⟩ := handle_command_last_bounds r t c hle
      refine ⟨hlo, ?_⟩
      intro hne
      cases c with
      | Reload =>
        by_cases hd : r.debounce_duration ≤ t - r.last_reload
        · rw [handle_command_reload_fires r t hd]
        · rw [handle_command_reload_suppressed r t (Nat.not_le.mp hd)] at hne
          exact absurd rfl hne
      | KeyInput k => exact absurd rfl hne
    · obtain ⟨_, hhi⟩ := handle_command_last_bounds r t c hle
      exact ih (handle_command r t c).runner
        (timesMonotone_weaken _ t rest hhi hrest) s hs

/-- C2 witness: starting from last_reload 0 and debounce 3, the
sequence of a dispatched Reload at time 5, a KeyInput at time 6 and a
suppressed Reload at time 7 satisfies the per-step property; checked
at the first step. -/
theorem last_reload_monotone_witness :
    (0 : Nat) ≤ 5 ∧
    ((0 : Nat) ≠ 5 → [StdinOp.write [114, 10], StdinOp.flush] =
      [StdinOp.write [114, 10], StdinOp.flush]) :=
  last_reload_monotone ⟨0, 3⟩
    [(5, FlutterCommand.Reload), (6, FlutterCommand.KeyInput 82), (7, FlutterCommand.Reload)]
    (by decide)
    (0, 5, [StdinOp.write [114, 10], StdinOp.flush])
    (by decide)

/-- C4: the watcher branch emits a Reload exactly when the received
item is an Ok event whose first path has extension dart; it never
emits any other command; and its outcome depends only on the first
path of the event, so later paths of a multi-path event are never
inspected. -/
theorem watcher_extension_filter :
    (∀ item : Except Unit FsEvent,
      watcherStep item = some FlutterCommand.Reload ↔
        ∃ ev p, item = Except.ok ev ∧ ev.paths.head? = some p ∧
          p.extension = some ("dart")) ∧
    (∀ item : Except Unit FsEvent,
      watcherStep item = none ∨ watcherStep item = some FlutterCommand.Reload) ∧
    (∀ ev1 ev2 : FsEvent, ev1.paths.head? = ev2.paths.head? →
      watcherStep (Except.ok ev1) = watcherStep (Except.ok ev2)) := by
  refine ⟨?_, ?_, ?_⟩
  · intro item
    constructor
    · intro h
      cases item with
      | error e => simp [watcherStep] at h
      | ok ev =>
        cases hp : ev.paths.head? with
        | none => simp [watcherStep, hp] at h
        | some p =>
          cases hx : p.extension with
          | none => simp [watcherStep, hp, hx] at h
          | some ext =>
            by_cases hd : ext = "dart"
            · exact ⟨ev, p, rfl, hp, by rw [hx, hd]⟩
            · simp [watcherStep, hp, hx, hd] at h
    · rintro ⟨ev, p, rfl, hp, hx⟩
      simp [watcherStep, hp, hx]
  · intro item
    cases item with
    | error e => left; rfl
    | ok ev =>
      cases hp : ev.paths.head? with
      | none => left; simp [watcherStep, hp]
      | some p =>
        cases hx : p.extension with
        | none => left; simp [watcherStep, hp, hx]
        | some ext =>
          by_cases hd : ext = "dart"
          · right; simp [watcherStep, hp, hx, hd]
          · left; simp [watcherStep, hp, hx, hd]
  · intro ev1 ev2 hfst
    simp [watcherStep, hfst]

/-- C4 witness: an Ok event whose first of two paths has extension
dart yields a Reload, by the only-first-path part applied to that
event and its single-path truncation together with the iff. -/
theorem watcher_extension_filter_witness :
    watcherStep (Except.ok ⟨[⟨some ("dart")⟩, ⟨some ("md")⟩]⟩) = some FlutterCommand.Reload := by
  rw [watcher_extension_filter.2.2 ⟨[⟨some ("dart")⟩, ⟨some ("md")⟩]⟩ ⟨[⟨some ("dart")⟩]⟩ rfl]
  exact (watcher_extension_filter.1 _).mpr ⟨⟨[⟨some ("dart")⟩]⟩, ⟨some ("dart")⟩, rfl, rfl, rfl⟩

/-- C7: in a loop iteration where both queues hold a pending item and
the file item passes the extension filter as command wc, the
dispatched stdin trace is exactly the trace of dispatching wc first
followed by the trace of dispatching the keyboard command on the
resulting state, one item is consumed from each queue, and the
iteration ends with a 10 millisecond sleep. -/
theorem event_loop_order (r : FlutterRunner) (item : Except Unit FsEvent)
    (fq : List (Except Unit FsEvent)) (c : FlutterCommand) (iq : List FlutterCommand)
    (now : Nat) (wc : FlutterCommand) (h : watcherStep item = some wc) :
    (loopIter r (item :: fq) (c :: iq) now).dispatched =
      (handle_command r now wc).stdinOps ++
        (handle_command (handle_command r now wc).runner now c).stdinOps ∧
    (loopIter r (item :: fq) (c :: iq) now).runner =
      (handle_command (handle_command r now wc).runner now c).runner ∧
    (loopIter r (item :: fq) (c :: iq) now).fileQueue = fq ∧
    (loopIter r (item :: fq) (c :: iq) now).inputQueue = iq ∧
    (loopIter r (item :: fq) (c :: iq) now).sleepMs = 10 := by
  simp [loopIter, h]

/-- C7 witness: with a dart-file event and the key byte 104 both
pending, debounce 1 elapsed, the reload trace precedes the key byte
trace and the sleep is 10 milliseconds. -/
theorem event_loop_order_witness :
    (loopIter ⟨0, 1⟩ [Except.ok ⟨[⟨some ("dart")⟩]⟩] [FlutterCommand.KeyInput 104] 4).dispatched =
      (handle_command ⟨0, 1⟩ 4 FlutterCommand.Reload).stdinOps ++
        (handle_command (handle_command ⟨0, 1⟩ 4 FlutterCommand.Reload).runner 4
          (FlutterCommand.KeyInput 104)).stdinOps ∧
    (loopIter ⟨0, 1⟩ [Except.ok ⟨[⟨some ("dart")⟩]⟩] [FlutterCommand.KeyInput 104] 4).sleepMs = 10 := by
  have h := event_loop_order ⟨0, 1⟩ (Except.ok ⟨[⟨some ("dart")⟩]⟩) []
    (FlutterCommand.KeyInput 104) [] 4 FlutterCommand.Reload (by decide)
  exact ⟨h.1, h.2.2.2.2⟩

/-- C8: when a Reload at time t1 is dispatched (the debounce has
elapsed) and a second Reload arrives at time t2 less than the debounce
interval after t1, the combined stdin trace of the two dispatch calls
is exactly one write of r and newline with its flush: the second
request is coalesced away. -/
theorem debounce_coalesce (r : FlutterRunner) (t1 t2 : Nat)
    (h1 : r.debounce_duration ≤ t1 - r.last_reload)
    (h2 : t2 - t1 < r.debounce_duration) :
    (handle_command r t1 FlutterCommand.Reload).stdinOps ++
      (handle_command (handle_command r t1 FlutterCommand.Reload).runner t2
        FlutterCommand.Reload).stdinOps =
      [StdinOp.write [114, 10], StdinOp.flush] := by
  rw [handle_command_reload_fires r t1 h1]
  rw [handle_command_reload_suppressed _ t2 h2]
  rfl

/-- C8 witness: last_reload 0, debounce 5, first Reload at 5 and
second at 7 produce exactly one reload write. -/
theorem debounce_coalesce_witness :
    (handle_command ⟨0, 5⟩ 5 FlutterCommand.Reload).stdinOps ++
      (handle_command (handle_command ⟨0, 5⟩ 5 FlutterCommand.Reload).runner 7
        FlutterCommand.Reload).stdinOps =
      [StdinOp.write [114, 10], StdinOp.flush] :=
  debounce_coalesce ⟨0, 5⟩ 5 7 (by decide) (by decide)

/-- C9: a freshly constructed supervisor has last_reload equal to the
construction-time clock reading, so the very first Reload request is
subject to the debounce: at time t it produces a nonempty stdin trace
iff t minus the startup time is at least the configured debounce, and
within the window it does nothing at all. -/
theorem first_reload_debounced (a : Args) (t0 t : Nat) :
    (FlutterRunner.new a t0).last_reload = t0 ∧
    ((handle_command (FlutterRunner.new a t0) t FlutterCommand.Reload).stdinOps ≠ [] ↔
      a.debounce ≤ t - t0) ∧
    (t - t0 < a.debounce →
      handle_command (FlutterRunner.new a t0) t FlutterCommand.Reload =
        { runner := FlutterRunner.new a t0, stdinOps := [], notice := false }) := by
  refine ⟨rfl, ?_, ?_⟩
  · constructor
    · intro h
      by_contra hd
      rw [handle_command_reload_suppressed _ t (Nat.not_le.mp hd)] at h
      exact h rfl
    · intro hd
      rw [handle_command_reload_fires _ t hd]
      simp
  · intro hd
    exact handle_command_reload_suppressed _ t hd

/-- C9 witness: with debounce 1000 and startup at time 0, a first
Reload at time 400 is inside the window and does nothing. -/
theorem first_reload_debounced_witness :
    handle_command (FlutterRunner.new ⟨".", [], 1000, none, none, false, false⟩ 0) 400
        FlutterCommand.Reload =
      { runner := FlutterRunner.new ⟨".", [], 1000, none, none, false, false⟩ 0,
        stdinOps := [], notice := false } :=
  (first_reload_debounced ⟨".", [], 1000, none, none, false, false⟩ 0 400).2.2 (by decide)
